import Mathlib

/-!
Verification of the workout-tracking CRUD backend (src/server.js) against its
natural-language specification.

The server is a thin HTTP layer over a relational store.  We shallowly embed
the relational rows as Lean structures, the store as lists of rows plus
generated-id counters, and each Express request handler as a pure function
from a store (and the request data) to the new store, the HTTP response, and
the trace of SQL statements the handler issued.  Store failures (connection
loss, constraint violations) are injected through explicit fault parameters;
the credential hasher (bcrypt) is an abstract function parameter.
-/

/-- A row of the "users" table: id is generated by the store, username is
unique, password stores the salted hash. -/
structure User where
  id : Nat
  username : String
  password : String
deriving DecidableEq

/-- A row of the "workout_plan" table. -/
structure WorkoutPlan where
  plan_id : Nat
  user_id : Nat
  plan_name : String
  description : String
deriving DecidableEq

/-- A row of the "exercise" table. -/
structure Exercise where
  exercise_id : Nat
  plan_id : Nat
  exercise_name : String
  sets : Nat
  repetitions : Nat
  notes : String
deriving DecidableEq

/-- The relational store: the three tables (rows kept in insertion order,
matching the store default ordering the spec appeals to) and the next
generated id for each table. -/
structure Store where
  users : List User
  plans : List WorkoutPlan
  exercises : List Exercise
  nextUserId : Nat
  nextPlanId : Nat
  nextExerciseId : Nat
deriving DecidableEq

/-- The empty store. -/
def Store.empty : Store :=
  { users := [], plans := [], exercises := [],
    nextUserId := 1, nextPlanId := 1, nextExerciseId := 1 }

/-- SQL statements issued by the handlers, one constructor per parameterized
query text appearing in src/server.js. -/
inductive Stmt where
  | insertUser (username hashed : String)
  | selectUserByUsername (username : String)
  | insertPlan (user_id : Nat) (plan_name description : String)
  | selectPlansByUser (user_id : Nat)
  | beginTx
  | deleteExercisesByPlan (planId : Nat)
  | deletePlanById (planId : Nat)
  | commitTx
  | rollbackTx
  | insertExercise (planId : Nat) (exercise_name : String) (sets repetitions : Nat) (notes : String)
  | selectExercisesByPlan (planId : Nat)
deriving DecidableEq

/-- Projection returned by the plan-listing query
SELECT plan_id, plan_name, description FROM "workout_plan" WHERE user_id = $1. -/
structure PlanSummary where
  plan_id : Nat
  plan_name : String
  description : String
deriving DecidableEq

/-- JSON response bodies, one constructor per response shape in src/server.js. -/
inductive Body where
  | text (s : String)
  | userRecord (u : User)
  | planRecord (p : WorkoutPlan)
  | planList (ps : List PlanSummary)
  | exerciseList (es : List Exercise)
  | loginOk (user : User) (success : Bool) (message : String)
  | msg (success : Bool) (message : String)
  | exerciseCreated (success : Bool) (message : String) (exercise : Exercise)
deriving DecidableEq

/-- An HTTP response: status code and JSON (or text) body. -/
structure Response where
  status : Nat
  body : Body
deriving DecidableEq

/-- Where (if anywhere) the plan-deletion transaction fails: src/server.js
lines 121 to 132 issue BEGIN, the exercise delete, the plan delete and COMMIT
in sequence, and any of the four awaits can throw. -/
inductive DeleteFault where
  | ok
  | atBegin
  | atDeleteExercises
  | atDeletePlan
  | atCommit
deriving DecidableEq

/-- Modelled from the spec: the relational schema is not part of src/, and
spec section 3 states that username uniqueness is enforced by the store (the
application does not pre-check); this predicate is that store-side unique
constraint, deciding whether the user INSERT is rejected. -/
def usernameTaken (db : Store) (username : String) : Bool :=
  db.users.any (fun u => u.username == username)

/-- Modelled from the spec: the relational schema is not part of src/, and
spec section 3 states that every Exercise's plan_id must reference an
existing WorkoutPlan at the moment of creation, enforced by the store; this
predicate is that store-side foreign-key check, deciding whether the exercise
INSERT is rejected. -/
def fkPlanExists (db : Store) (planId : Nat) : Bool :=
  db.plans.any (fun p => p.plan_id == planId)

/-- Registration handler, src/server.js lines 30 to 49.  The password is
hashed by bcrypt BEFORE the try block; a hash failure (for example a request
body with no password field) therefore escapes the handler and no response is
sent at all, modeled by the `none` response.  Inside the try block the INSERT
either fails (injected fault, or the store-enforced username uniqueness the
spec describes) giving the plain-text 500, or returns the new row which is
sent back whole with status 201. -/
def registerHandler (hash : String → String) (db : Store)
    (username password : String) (hashFails storeFault : Bool) :
    Store × Option Response × List Stmt :=
  if hashFails then
    (db, none, [])
  else
    let hashed := hash password
    if storeFault || usernameTaken db username then
      (db, some ⟨500, .text "Internal Server Error"⟩, [.insertUser username hashed])
    else
      let newUser : User := ⟨db.nextUserId, username, hashed⟩
      ({ db with users := db.users ++ [newUser], nextUserId := db.nextUserId + 1 },
       some ⟨201, .userRecord newUser⟩, [.insertUser username hashed])

/-- Login handler, src/server.js lines 52 to 76.  SELECT * FROM "users" WHERE
username = $1; the code reads result.rows[0], i.e. the first matching row.
bcrypt.compare is the abstract `verify`. -/
def loginHandler (verify : String → String → Bool) (db : Store)
    (username password : String) (storeFault : Bool) :
    Store × Response × List Stmt :=
  if storeFault then
    (db, ⟨500, .msg false "Internal Server Error"⟩, [.selectUserByUsername username])
  else
    match db.users.find? (fun u => u.username == username) with
    | some user =>
      if verify password user.password then
        (db, ⟨200, .loginOk user true "Login successful"⟩, [.selectUserByUsername username])
      else
        (db, ⟨401, .msg false "Incorrect password"⟩, [.selectUserByUsername username])
    | none =>
      (db, ⟨404, .msg false "User not found"⟩, [.selectUserByUsername username])

/-- Plan-creation handler, src/server.js lines 79 to 95: one INSERT returning
the new row with 201, any store error giving the JSON 500. -/
def createPlanHandler (db : Store) (user_id : Nat) (plan_name description : String)
    (storeFault : Bool) : Store × Response × List Stmt :=
  if storeFault then
    (db, ⟨500, .msg false "Internal Server Error"⟩,
     [.insertPlan user_id plan_name description])
  else
    let newPlan : WorkoutPlan := ⟨db.nextPlanId, user_id, plan_name, description⟩
    ({ db with plans := db.plans ++ [newPlan], nextPlanId := db.nextPlanId + 1 },
     ⟨201, .planRecord newPlan⟩, [.insertPlan user_id plan_name description])

/-- Plan-listing handler, src/server.js lines 98 to 114: SELECT plan_id,
plan_name, description FROM "workout_plan" WHERE user_id = $1, rows returned
in store (insertion) order, status 200 even when empty. -/
def listPlansHandler (db : Store) (user_id : Nat) (storeFault : Bool) :
    Store × Response × List Stmt :=
  if storeFault then
    (db, ⟨500, .msg false "Internal Server Error"⟩, [.selectPlansByUser user_id])
  else
    (db,
     ⟨200, .planList ((db.plans.filter (fun p => p.user_id == user_id)).map
        (fun p => ⟨p.plan_id, p.plan_name, p.description⟩))⟩,
     [.selectPlansByUser user_id])

/-- Plan-deletion handler, src/server.js lines 117 to 148.  BEGIN; DELETE
FROM "exercise" WHERE plan_id = $1; DELETE FROM "workout_plan" WHERE
plan_id = $1 RETURNING *; COMMIT.  Only after the commit does the handler
inspect the returned rows: zero rows give the 404, otherwise the 200
confirmation.  Any fault during the four transactional steps triggers
ROLLBACK (restoring the pre-request state) and the JSON 500. -/
def deletePlanHandler (db : Store) (planId : Nat) (fault : DeleteFault) :
    Store × Response × List Stmt :=
  match fault with
  | .ok =>
    let deletedRows := db.plans.filter (fun p => p.plan_id == planId)
    let committed : Store :=
      { db with
        exercises := db.exercises.filter (fun e => !(e.plan_id == planId)),
        plans := db.plans.filter (fun p => !(p.plan_id == planId)) }
    let trace : List Stmt :=
      [.beginTx, .deleteExercisesByPlan planId, .deletePlanById planId, .commitTx]
    if deletedRows.length == 0 then
      (committed, ⟨404, .msg false "Workout plan not found."⟩, trace)
    else
      (committed,
       ⟨200, .msg true ("Workout plan with ID " ++ toString planId ++
          " and associated exercises deleted successfully.")⟩,
       trace)
  | .atBegin =>
    (db, ⟨500, .msg false "Internal Server Error"⟩, [.beginTx, .rollbackTx])
  | .atDeleteExercises =>
    (db, ⟨500, .msg false "Internal Server Error"⟩,
     [.beginTx, .deleteExercisesByPlan planId, .rollbackTx])
  | .atDeletePlan =>
    (db, ⟨500, .msg false "Internal Server Error"⟩,
     [.beginTx, .deleteExercisesByPlan planId, .deletePlanById planId, .rollbackTx])
  | .atCommit =>
    (db, ⟨500, .msg false "Internal Server Error"⟩,
     [.beginTx, .deleteExercisesByPlan planId, .deletePlanById planId, .commitTx,
      .rollbackTx])

/-- Exercise-creation handler, src/server.js lines 151 to 172: one INSERT
scoped to planId returning the new row, wrapped with success and message,
status 201.  Modelled from the spec: the schema (not under src/) makes
exercise.plan_id reference workout_plan, so the store rejects an insert whose
planId matches no plan; that rejection, like any store error, lands in the
catch block and yields the JSON 500. -/
def createExerciseHandler (db : Store) (planId : Nat) (exercise_name : String)
    (sets repetitions : Nat) (notes : String) (storeFault : Bool) :
    Store × Response × List Stmt :=
  if storeFault || !(fkPlanExists db planId) then
    (db, ⟨500, .msg false "Internal Server Error"⟩,
     [.insertExercise planId exercise_name sets repetitions notes])
  else
    let newExercise : Exercise :=
      ⟨db.nextExerciseId, planId, exercise_name, sets, repetitions, notes⟩
    ({ db with exercises := db.exercises ++ [newExercise],
               nextExerciseId := db.nextExerciseId + 1 },
     ⟨201, .exerciseCreated true "Exercise added to workout plan successfully." newExercise⟩,
     [.insertExercise planId exercise_name sets repetitions notes])

/-- Exercise-listing handler, src/server.js lines 175 to 190: SELECT * FROM
"exercise" WHERE plan_id = $1, status 200 even when empty. -/
def listExercisesHandler (db : Store) (planId : Nat) (storeFault : Bool) :
    Store × Response × List Stmt :=
  if storeFault then
    (db, ⟨500, .msg false "Internal Server Error"⟩, [.selectExercisesByPlan planId])
  else
    (db, ⟨200, .exerciseList (db.exercises.filter (fun e => e.plan_id == planId))⟩,
     [.selectExercisesByPlan planId])

/-- One incoming HTTP request, with its injected store/hasher faults. -/
inductive Request where
  | register (username password : String) (hashFails storeFault : Bool)
  | login (username password : String) (storeFault : Bool)
  | createPlan (user_id : Nat) (plan_name description : String) (storeFault : Bool)
  | listPlans (user_id : Nat) (storeFault : Bool)
  | deletePlan (planId : Nat) (fault : DeleteFault)
  | createExercise (planId : Nat) (exercise_name : String) (sets repetitions : Nat)
      (notes : String) (storeFault : Bool)
  | listExercises (planId : Nat) (storeFault : Bool)

/-- Dispatch one request to its handler and keep the resulting store. -/
def step (hash : String → String) (verify : String → String → Bool)
    (db : Store) : Request → Store
  | .register username password hashFails storeFault =>
    (registerHandler hash db username password hashFails storeFault).1
  | .login username password storeFault =>
    (loginHandler verify db username password storeFault).1
  | .createPlan user_id plan_name description storeFault =>
    (createPlanHandler db user_id plan_name description storeFault).1
  | .listPlans user_id storeFault =>
    (listPlansHandler db user_id storeFault).1
  | .deletePlan planId fault =>
    (deletePlanHandler db planId fault).1
  | .createExercise planId exercise_name sets repetitions notes storeFault =>
    (createExerciseHandler db planId exercise_name sets repetitions notes storeFault).1
  | .listExercises planId storeFault =>
    (listExercisesHandler db planId storeFault).1

/-- Run a sequence of requests from a starting store. -/
def runRequests (hash : String → String) (verify : String → String → Bool)
    (db : Store) (rs : List Request) : Store :=
  rs.foldl (step hash verify) db

/-- The SQL statements issued to the store by one request, read off the same
handler functions as `step`. -/
def stepTrace (hash : String → String) (verify : String → String → Bool)
    (db : Store) : Request → List Stmt
  | .register username password hashFails storeFault =>
    (registerHandler hash db username password hashFails storeFault).2.2
  | .login username password storeFault =>
    (loginHandler verify db username password storeFault).2.2
  | .createPlan user_id plan_name description storeFault =>
    (createPlanHandler db user_id plan_name description storeFault).2.2
  | .listPlans user_id storeFault =>
    (listPlansHandler db user_id storeFault).2.2
  | .deletePlan planId fault =>
    (deletePlanHandler db planId fault).2.2
  | .createExercise planId exercise_name sets repetitions notes storeFault =>
    (createExerciseHandler db planId exercise_name sets repetitions notes storeFault).2.2
  | .listExercises planId storeFault =>
    (listExercisesHandler db planId storeFault).2.2

/-- The ownership invariant of spec section 3: every exercise row's plan_id
references an existing workout plan. -/
def exercisesValid (db : Store) : Prop :=
  ∀ e ∈ db.exercises, ∃ p ∈ db.plans, p.plan_id = e.plan_id

/-- C1: For every planId, the Plan Deletion Handler executes exactly the
protocol BEGIN, delete all Exercise rows with that plan_id, delete the
WorkoutPlan row with that plan_id capturing the deleted row, COMMIT; the
resulting store is the committed one in both outcomes, and only then does it
respond: 404 with success false and "Workout plan not found." when the
plan-delete removed zero rows, 200 with a confirmation message otherwise. -/
theorem deletePlan_protocol (db : Store) (planId : Nat) :
    deletePlanHandler db planId .ok =
      ({ db with
          exercises := db.exercises.filter (fun e => !(e.plan_id == planId)),
          plans := db.plans.filter (fun p => !(p.plan_id == planId)) },
       if ∃ p ∈ db.plans, p.plan_id = planId then
         ⟨200, .msg true ("Workout plan with ID " ++ toString planId ++
            " and associated exercises deleted successfully.")⟩
       else
         ⟨404, .msg false "Workout plan not found."⟩,
       [.beginTx, .deleteExercisesByPlan planId, .deletePlanById planId, .commitTx]) := by
  by_cases h : ∃ p ∈ db.plans, p.plan_id = planId
  · have hne : (db.plans.filter (fun p => p.plan_id == planId)).length ≠ 0 := by
      obtain ⟨p, hp, hpe⟩ := h
      intro hlen
      rw [List.length_eq_zero] at hlen
      have : p ∈ db.plans.filter (fun p => p.plan_id == planId) := by
        rw [List.mem_filter]
        exact ⟨hp, by simp [hpe]⟩
      rw [hlen] at this
      exact absurd this (List.not_mem_nil p)
    simp [deletePlanHandler, hne, h]
  · have heq : (db.plans.filter (fun p => p.plan_id == planId)).length = 0 := by
      rw [List.length_eq_zero, List.filter_eq_nil_iff]
      intro p hp
      simp only [beq_iff_eq]
      exact fun hpe => h ⟨p, hp, hpe⟩
    simp [deletePlanHandler, heq, h]

/-- C3: If any error occurs during the transactional steps of the Plan
Deletion Handler (begin, exercise-delete, plan-delete, commit), the handler
issues a ROLLBACK (the last statement of its trace), responds HTTP 500, and
the store is exactly as it was before the request. -/
theorem deletePlan_fault_rollback (db : Store) (planId : Nat) (fault : DeleteFault)
    (h : fault ≠ .ok) :
    (deletePlanHandler db planId fault).1 = db ∧
    (deletePlanHandler db planId fault).2.1 = ⟨500, .msg false "Internal Server Error"⟩ ∧
    (deletePlanHandler db planId fault).2.2.getLast? = some .rollbackTx := by
  cases fault with
  | ok => exact absurd rfl h
  | atBegin => exact ⟨rfl, rfl, rfl⟩
  | atDeleteExercises => exact ⟨rfl, rfl, rfl⟩
  | atDeletePlan => exact ⟨rfl, rfl, rfl⟩
  | atCommit => exact ⟨rfl, rfl, rfl⟩

/-- Witness for C3 at a concrete store, plan id and fault. -/
theorem deletePlan_fault_rollback_witness :
    (deletePlanHandler Store.empty 7 .atCommit).1 = Store.empty ∧
    (deletePlanHandler Store.empty 7 .atCommit).2.1 =
      ⟨500, .msg false "Internal Server Error"⟩ ∧
    (deletePlanHandler Store.empty 7 .atCommit).2.2.getLast? = some .rollbackTx :=
  deletePlan_fault_rollback Store.empty 7 .atCommit (by decide)

/-- C5: Deleting a planId that matches no WorkoutPlan row (in a store
satisfying the ownership invariant, so no Exercise row carries that plan_id
either) responds HTTP 404 and leaves the store completely unchanged. -/
theorem deletePlan_missing_plan_404 (db : Store) (planId : Nat)
    (hplan : ∀ p ∈ db.plans, p.plan_id ≠ planId)
    (hvalid : exercisesValid db) :
    deletePlanHandler db planId .ok =
      (db, ⟨404, .msg false "Workout plan not found."⟩,
       [.beginTx, .deleteExercisesByPlan planId, .deletePlanById planId, .commitTx]) := by
  have hex : ∀ e ∈ db.exercises, e.plan_id ≠ planId := by
    intro e he hcon
    obtain ⟨p, hp, hpe⟩ := hvalid e he
    exact hplan p hp (hpe.trans hcon)
  have hfe : db.exercises.filter (fun e => !(e.plan_id == planId)) = db.exercises := by
    rw [List.filter_eq_self]
    intro e he
    simpa using hex e he
  have hfp : db.plans.filter (fun p => !(p.plan_id == planId)) = db.plans := by
    rw [List.filter_eq_self]
    intro p hp
    simpa using hplan p hp
  have hnone : ¬ ∃ p ∈ db.plans, p.plan_id = planId := by
    rintro ⟨p, hp, hpe⟩
    exact hplan p hp hpe
  rw [deletePlan_protocol]
  simp only [hfe, hfp, if_neg hnone]

/-- Witness for C5: a store holding one plan and one exercise, deleted under
an unmatched plan id. -/
theorem deletePlan_missing_plan_404_witness :
    deletePlanHandler
        { users := [], plans := [⟨1, 1, "push day", "upper body"⟩],
          exercises := [⟨1, 1, "bench press", 3, 10, "slow"⟩],
          nextUserId := 2, nextPlanId := 2, nextExerciseId := 2 } 2 .ok =
      ({ users := [], plans := [⟨1, 1, "push day", "upper body"⟩],
         exercises := [⟨1, 1, "bench press", 3, 10, "slow"⟩],
         nextUserId := 2, nextPlanId := 2, nextExerciseId := 2 },
       ⟨404, .msg false "Workout plan not found."⟩,
       [.beginTx, .deleteExercisesByPlan 2, .deletePlanById 2, .commitTx]) :=
  deletePlan_missing_plan_404 _ 2 (by decide)
    (by unfold exercisesValid; decide)

/-- The login handler never modifies the store. -/
lemma loginHandler_store_eq (verify : String → String → Bool) (db : Store)
    (username password : String) (storeFault : Bool) :
    (loginHandler verify db username password storeFault).1 = db := by
  unfold loginHandler
  split
  · rfl
  · split
    · split <;> rfl
    · rfl

/-- The plan-listing handler never modifies the store. -/
lemma listPlansHandler_store_eq (db : Store) (user_id : Nat) (storeFault : Bool) :
    (listPlansHandler db user_id storeFault).1 = db := by
  unfold listPlansHandler
  split <;> rfl

/-- The exercise-listing handler never modifies the store. -/
lemma listExercisesHandler_store_eq (db : Store) (planId : Nat) (storeFault : Bool) :
    (listExercisesHandler db planId storeFault).1 = db := by
  unfold listExercisesHandler
  split <;> rfl

/-- The ownership invariant transfers to any store with the same exercises
and at least the same plans. -/
lemma exercisesValid_mono (db db2 : Store) (hex : db2.exercises = db.exercises)
    (hpl : ∀ p ∈ db.plans, p ∈ db2.plans) (h : exercisesValid db) :
    exercisesValid db2 := by
  intro e he
  rw [hex] at he
  obtain ⟨p, hp, hpe⟩ := h e he
  exact ⟨p, hpl p hp, hpe⟩

/-- Every single handler invocation preserves the ownership invariant. -/
lemma step_preserves_exercisesValid (hash : String → String)
    (verify : String → String → Bool) (db : Store) (r : Request)
    (h : exercisesValid db) : exercisesValid (step hash verify db r) := by
  cases r with
  | register username password hashFails storeFault =>
    simp only [step, registerHandler]
    split_ifs <;> exact exercisesValid_mono db _ rfl (fun p hp => hp) h
  | login username password storeFault =>
    simp only [step]
    rw [loginHandler_store_eq]
    exact h
  | createPlan user_id plan_name description storeFault =>
    simp only [step, createPlanHandler]
    split_ifs with hf
    · exact h
    · exact exercisesValid_mono db _ rfl (fun p hp => List.mem_append_left _ hp) h
  | listPlans user_id storeFault =>
    simp only [step]
    rw [listPlansHandler_store_eq]
    exact h
  | deletePlan planId fault =>
    simp only [step]
    cases fault with
    | ok =>
      simp only [deletePlanHandler]
      split
      all_goals
        intro e he
        rw [List.mem_filter] at he
        obtain ⟨p, hp, hpe⟩ := h e he.1
        refine ⟨p, List.mem_filter.2 ⟨hp, ?_⟩, hpe⟩
        have hne : e.plan_id ≠ planId := by simpa using he.2
        simp [hpe, hne]
    | atBegin => exact h
    | atDeleteExercises => exact h
    | atDeletePlan => exact h
    | atCommit => exact h
  | createExercise planId exercise_name sets repetitions notes storeFault =>
    simp only [step, createExerciseHandler]
    split_ifs with hf
    · exact h
    · intro e he
      rw [List.mem_append] at he
      cases he with
      | inl hold =>
        obtain ⟨p, hp, hpe⟩ := h e hold
        exact ⟨p, hp, hpe⟩
      | inr hnew =>
        rw [List.mem_singleton] at hnew
        subst hnew
        simp only [fkPlanExists, Bool.or_eq_true, Bool.not_eq_true',
          List.any_eq_false] at hf
        push_neg at hf
        obtain ⟨-, ⟨p, hp, hpe⟩⟩ := hf
        exact ⟨p, hp, by simpa using hpe⟩
  | listExercises planId storeFault =>
    simp only [step]
    rw [listExercisesHandler_store_eq]
    exact h

/-- The invariant is preserved across any whole request sequence. -/
lemma runRequests_preserves_exercisesValid (hash : String → String)
    (verify : String → String → Bool) :
    ∀ (rs : List Request) (db : Store), exercisesValid db →
      exercisesValid (runRequests hash verify db rs)
  | [], _, h => h
  | r :: rs, db, h =>
    runRequests_preserves_exercisesValid hash verify rs _
      (step_preserves_exercisesValid hash verify db r h)

/-- C2: In every store reachable by any sequence of handler invocations from
a store satisfying the ownership invariant, no Exercise row references a
deleted (hence nonexistent) WorkoutPlan; and the Plan Deletion Handler
removes the plan row together with all its Exercise rows, or (on any fault)
removes neither. -/
theorem exercise_ownership_invariant (hash : String → String)
    (verify : String → String → Bool) (db : Store) (h : exercisesValid db) :
    (∀ rs : List Request, exercisesValid (runRequests hash verify db rs)) ∧
    (∀ (planId : Nat) (fault : DeleteFault),
      ((deletePlanHandler db planId fault).1.plans =
          db.plans.filter (fun p => !(p.plan_id == planId)) ∧
       (deletePlanHandler db planId fault).1.exercises =
          db.exercises.filter (fun e => !(e.plan_id == planId)))
      ∨ (deletePlanHandler db planId fault).1 = db) := by
  constructor
  · intro rs
    exact runRequests_preserves_exercisesValid hash verify rs db h
  · intro planId fault
    cases fault with
    | ok =>
      left
      constructor
      · simp only [deletePlanHandler]
        split <;> rfl
      · simp only [deletePlanHandler]
        split <;> rfl
    | atBegin => exact Or.inr rfl
    | atDeleteExercises => exact Or.inr rfl
    | atDeletePlan => exact Or.inr rfl
    | atCommit => exact Or.inr rfl

/-- Witness for C2: a creation, exercise-insertion and deletion sequence run
from the empty store keeps the invariant. -/
theorem exercise_ownership_invariant_witness :
    exercisesValid (runRequests (fun s => s) (fun _ _ => true) Store.empty
      [Request.createPlan 1 "push day" "upper body" false,
       Request.createExercise 1 "bench press" 3 10 "slow" false,
       Request.deletePlan 1 .ok]) :=
  (exercise_ownership_invariant (fun s => s) (fun _ _ => true) Store.empty
    (by unfold exercisesValid Store.empty; decide)).1 _

/-- C9: Within every invocation of the Plan Deletion Handler, whenever the
plan-delete statement is issued, the exercise-delete statement occurs strictly
earlier in the issued-statement sequence (the handler awaits them in order on
the shared pool); every other handler issues at most one statement, and the
deletion handler always issues at least two, making it the only handler with
more than one statement inside one transaction scope. -/
theorem deletePlan_statement_ordering (hash : String → String)
    (verify : String → String → Bool) (db : Store) (planId : Nat)
    (fault : DeleteFault) :
    (Stmt.deletePlanById planId ∈ (deletePlanHandler db planId fault).2.2 →
      ∃ l1 l2, (deletePlanHandler db planId fault).2.2 =
        l1 ++ Stmt.deleteExercisesByPlan planId :: l2 ∧
        Stmt.deletePlanById planId ∈ l2) ∧
    (∀ r : Request, (∀ (pid : Nat) (f : DeleteFault), r ≠ .deletePlan pid f) →
      (stepTrace hash verify db r).length ≤ 1) ∧
    2 ≤ (deletePlanHandler db planId fault).2.2.length := by
  refine ⟨?_, ?_, ?_⟩
  · cases fault with
    | ok =>
      intro _
      refine ⟨[.beginTx], [.deletePlanById planId, .commitTx], ?_, ?_⟩
      · simp only [deletePlanHandler]
        split <;> rfl
      · simp
    | atBegin =>
      intro hmem
      simp [deletePlanHandler] at hmem
    | atDeleteExercises =>
      intro hmem
      simp [deletePlanHandler] at hmem
    | atDeletePlan =>
      intro _
      exact ⟨[.beginTx], [.deletePlanById planId, .rollbackTx], rfl, by simp⟩
    | atCommit =>
      intro _
      exact ⟨[.beginTx], [.deletePlanById planId, .commitTx, .rollbackTx], rfl, by simp⟩
  · intro r hr
    cases r with
    | register username password hashFails storeFault =>
      simp only [stepTrace, registerHandler]
      split_ifs <;> simp
    | login username password storeFault =>
      simp only [stepTrace, loginHandler]
      split
      · simp
      · split
        · split <;> simp
        · simp
    | createPlan user_id plan_name description storeFault =>
      simp only [stepTrace, createPlanHandler]
      split_ifs <;> simp
    | listPlans user_id storeFault =>
      simp only [stepTrace, listPlansHandler]
      split <;> simp
    | deletePlan pid f =>
      exact absurd rfl (hr pid f)
    | createExercise pid exercise_name sets repetitions notes storeFault =>
      simp only [stepTrace, createExerciseHandler]
      split_ifs <;> simp
    | listExercises pid storeFault =>
      simp only [stepTrace, listExercisesHandler]
      split <;> simp
  · cases fault with
    | ok =>
      simp only [deletePlanHandler]
      split <;> simp
    | atBegin => simp [deletePlanHandler]
    | atDeleteExercises => simp [deletePlanHandler]
    | atDeletePlan => simp [deletePlanHandler]
    | atCommit => simp [deletePlanHandler]

/-- Witness for C9 at a concrete store, plan id and request. -/
theorem deletePlan_statement_ordering_witness :
    (∃ l1 l2, (deletePlanHandler Store.empty 1 .ok).2.2 =
       l1 ++ Stmt.deleteExercisesByPlan 1 :: l2 ∧ Stmt.deletePlanById 1 ∈ l2) ∧
    (stepTrace (fun s => s) (fun _ _ => true) Store.empty
       (Request.login "alice" "secret" false)).length ≤ 1 ∧
    2 ≤ (deletePlanHandler Store.empty 1 .ok).2.2.length := by
  have h := deletePlan_statement_ordering (fun s => s) (fun _ _ => true)
    Store.empty 1 .ok
  exact ⟨h.1 (by decide), h.2.1 (Request.login "alice" "secret" false)
    (fun pid f hcon => Request.noConfusion hcon), h.2.2⟩

/-- C4: With the user query succeeding, the Login Handler has exactly a
three-way outcome and never changes the store: no matching username gives
HTTP 404 with success false; a matching row whose hash verification fails
gives HTTP 401 with success false; a matching row whose verification succeeds
gives HTTP 200 with success true and the full user row. -/
theorem login_three_way_outcome (verify : String → String → Bool) (db : Store)
    (username password : String) :
    (loginHandler verify db username password false).1 = db ∧
    ((loginHandler verify db username password false).2.1.status = 404 ∨
     (loginHandler verify db username password false).2.1.status = 401 ∨
     (loginHandler verify db username password false).2.1.status = 200) ∧
    ((∀ u ∈ db.users, u.username ≠ username) →
      (loginHandler verify db username password false).2.1 =
        ⟨404, .msg false "User not found"⟩) ∧
    (∀ u, db.users.find? (fun x => x.username == username) = some u →
      (verify password u.password = false →
        (loginHandler verify db username password false).2.1 =
          ⟨401, .msg false "Incorrect password"⟩) ∧
      (verify password u.password = true →
        (loginHandler verify db username password false).2.1 =
          ⟨200, .loginOk u true "Login successful"⟩)) := by
  cases hfind : db.users.find? (fun x => x.username == username) with
  | none =>
    refine ⟨?_, ?_, ?_, ?_⟩
    · simp [loginHandler, hfind]
    · left
      simp [loginHandler, hfind]
    · intro _
      simp [loginHandler, hfind]
    · intro u hu
      cases hu
  | some u =>
    have hmem : u ∈ db.users := List.mem_of_find?_eq_some hfind
    have huser : u.username = username := by
      have := List.find?_some hfind
      simpa using this
    refine ⟨?_, ?_, ?_, ?_⟩
    · cases hv : verify password u.password <;> simp [loginHandler, hfind, hv]
    · cases hv : verify password u.password
      · right; left
        simp [loginHandler, hfind, hv]
      · right; right
        simp [loginHandler, hfind, hv]
    · intro hno
      exact absurd huser (hno u hmem)
    · intro u2 hu2
      injection hu2 with hu2
      subst hu2
      constructor
      · intro hv
        simp [loginHandler, hfind, hv]
      · intro hv
        simp [loginHandler, hfind, hv]

/-- Witness for C4: a store with one registered user, exercised on the
missing-user, wrong-password and correct-password outcomes. -/
theorem login_three_way_outcome_witness :
    (loginHandler (fun p h => h == "HASH" ++ p)
        { users := [⟨1, "alice", "HASHsecret"⟩], plans := [], exercises := [],
          nextUserId := 2, nextPlanId := 1, nextExerciseId := 1 }
        "bob" "secret" false).2.1 = ⟨404, .msg false "User not found"⟩ ∧
    (loginHandler (fun p h => h == "HASH" ++ p)
        { users := [⟨1, "alice", "HASHsecret"⟩], plans := [], exercises := [],
          nextUserId := 2, nextPlanId := 1, nextExerciseId := 1 }
        "alice" "wrong" false).2.1 = ⟨401, .msg false "Incorrect password"⟩ ∧
    (loginHandler (fun p h => h == "HASH" ++ p)
        { users := [⟨1, "alice", "HASHsecret"⟩], plans := [], exercises := [],
          nextUserId := 2, nextPlanId := 1, nextExerciseId := 1 }
        "alice" "secret" false).2.1 =
      ⟨200, .loginOk ⟨1, "alice", "HASHsecret"⟩ true "Login successful"⟩ := by
  refine ⟨?_, ?_, ?_⟩
  · exact (login_three_way_outcome (fun p h => h == "HASH" ++ p) _ "bob" "secret").2.2.1
      (by decide)
  · exact ((login_three_way_outcome (fun p h => h == "HASH" ++ p) _ "alice" "wrong").2.2.2
      ⟨1, "alice", "HASHsecret"⟩ (by decide)).1 (by decide)
  · exact ((login_three_way_outcome (fun p h => h == "HASH" ++ p) _ "alice" "secret").2.2.2
      ⟨1, "alice", "HASHsecret"⟩ (by decide)).2 (by decide)

/-- C7: On a successful registration the handler responds HTTP 201 with the
newly created User record whose stored password field is the salted hash
(never the submitted plaintext, given that the hasher never returns its
input), while any store error — an injected fault or the store-enforced
username-uniqueness violation alike — yields the very same plain 500 response
with no distinguishing error code. -/
theorem register_hashes_password_and_collapses_errors (hash : String → String)
    (db : Store) (username password : String)
    (hno : hash password ≠ password) :
    ((∀ u ∈ db.users, u.username ≠ username) →
      registerHandler hash db username password false false =
        ({ db with users := db.users ++ [⟨db.nextUserId, username, hash password⟩],
                   nextUserId := db.nextUserId + 1 },
         some ⟨201, .userRecord ⟨db.nextUserId, username, hash password⟩⟩,
         [.insertUser username (hash password)]) ∧
      (User.mk db.nextUserId username (hash password)).password ≠ password) ∧
    (registerHandler hash db username password false true).2.1 =
      some ⟨500, .text "Internal Server Error"⟩ ∧
    ((∃ u ∈ db.users, u.username = username) →
      (registerHandler hash db username password false false).2.1 =
        some ⟨500, .text "Internal Server Error"⟩) := by
  refine ⟨?_, ?_, ?_⟩
  · intro hfree
    have hany : usernameTaken db username = false := by
      rw [usernameTaken, List.any_eq_false]
      intro u hu
      simpa using hfree u hu
    constructor
    · simp [registerHandler, hany]
    · exact hno
  · simp [registerHandler]
  · rintro ⟨u, hu, hname⟩
    have hany : usernameTaken db username = true := by
      rw [usernameTaken, List.any_eq_true]
      exact ⟨u, hu, by simp [hname]⟩
    simp [registerHandler, hany]

/-- Witness for C7: registering alice with password secret under a concrete
hasher succeeds with the hash stored, and registering a duplicate username
gives the same 500 as a store fault. -/
theorem register_hashes_password_and_collapses_errors_witness :
    (registerHandler (fun s => "$2b$10$" ++ s) Store.empty "alice" "secret"
        false false =
      ({ users := [⟨1, "alice", "$2b$10$secret"⟩], plans := [], exercises := [],
         nextUserId := 2, nextPlanId := 1, nextExerciseId := 1 },
       some ⟨201, .userRecord ⟨1, "alice", "$2b$10$secret"⟩⟩,
       [.insertUser "alice" "$2b$10$secret"]) ∧
     (User.mk 1 "alice" "$2b$10$secret").password ≠ "secret") ∧
    (registerHandler (fun s => "$2b$10$" ++ s)
        { users := [⟨1, "alice", "$2b$10$secret"⟩], plans := [], exercises := [],
          nextUserId := 2, nextPlanId := 1, nextExerciseId := 1 }
        "alice" "secret" false false).2.1 =
      some ⟨500, .text "Internal Server Error"⟩ :=
  ⟨(register_hashes_password_and_collapses_errors (fun s => "$2b$10$" ++ s)
      Store.empty "alice" "secret" (by decide)).1 (by decide),
   (register_hashes_password_and_collapses_errors (fun s => "$2b$10$" ++ s)
      { users := [⟨1, "alice", "$2b$10$secret"⟩], plans := [], exercises := [],
        nextUserId := 2, nextPlanId := 1, nextExerciseId := 1 }
      "alice" "secret" (by decide)).2.2
     ⟨⟨1, "alice", "$2b$10$secret"⟩, by decide, rfl⟩⟩

/-- C10: When the password-hashing step itself fails, the Registration
Handler sends no HTTP response at all (neither 201 nor 500), touches no store
state, and issues no SQL statement: the hash is computed before the try/catch
whose error branch produces the 500. -/
theorem register_hash_failure_sends_no_response (hash : String → String)
    (db : Store) (username password : String) (storeFault : Bool) :
    registerHandler hash db username password true storeFault = (db, none, []) := by
  rfl

/-- C8: For every user_id the Plan Listing Handler responds HTTP 200 with the
projection to plan_id, plan_name and description of an insertion-ordered
sublist of the stored plans holding exactly that user's plans, leaves the
store untouched, and returns an empty sequence (still HTTP 200) when that
user has no plans. -/
theorem listPlans_per_user (db : Store) (user_id : Nat) :
    (listPlansHandler db user_id false).1 = db ∧
    (listPlansHandler db user_id false).2.1.status = 200 ∧
    (∃ sub : List WorkoutPlan, sub.Sublist db.plans ∧
      (∀ p ∈ sub, p.user_id = user_id) ∧
      (∀ p ∈ db.plans, p.user_id = user_id → p ∈ sub) ∧
      (listPlansHandler db user_id false).2.1.body =
        .planList (sub.map (fun p => ⟨p.plan_id, p.plan_name, p.description⟩))) ∧
    ((∀ p ∈ db.plans, p.user_id ≠ user_id) →
      (listPlansHandler db user_id false).2.1.body = .planList []) := by
  refine ⟨rfl, rfl, ⟨db.plans.filter (fun p => p.user_id == user_id),
    List.filter_sublist db.plans, ?_, ?_, rfl⟩, ?_⟩
  · intro p hp
    have := (List.mem_filter.1 hp).2
    simpa using this
  · intro p hp hpe
    exact List.mem_filter.2 ⟨hp, by simp [hpe]⟩
  · intro hnone
    have hfil : db.plans.filter (fun p => p.user_id == user_id) = [] := by
      rw [List.filter_eq_nil_iff]
      intro p hp
      simpa using hnone p hp
    simp only [listPlansHandler]
    rw [if_neg (by simp)]
    simp [hfil]

/-- Witness for C8: a store with plans for users 1 and 2, listed for user 1
(two summaries, in insertion order) and for user 3 (empty). -/
theorem listPlans_per_user_witness :
    (listPlansHandler
        { users := [], plans := [⟨1, 1, "push", "a"⟩, ⟨2, 2, "pull", "b"⟩,
            ⟨3, 1, "legs", "c"⟩], exercises := [],
          nextUserId := 1, nextPlanId := 4, nextExerciseId := 1 }
        1 false).2.1.status = 200 ∧
    (listPlansHandler
        { users := [], plans := [⟨1, 1, "push", "a"⟩, ⟨2, 2, "pull", "b"⟩,
            ⟨3, 1, "legs", "c"⟩], exercises := [],
          nextUserId := 1, nextPlanId := 4, nextExerciseId := 1 }
        3 false).2.1.body = .planList [] := by
  refine ⟨(listPlans_per_user _ 1).2.1, (listPlans_per_user _ 3).2.2.2 ?_⟩
  decide

/-- C6: Creating an exercise under an existing plan that has no prior
exercises responds HTTP 201 wrapped in success, message and the exercise, and
listing exercises for that plan afterwards returns exactly the created
exercise with every submitted field intact. -/
theorem exercise_create_then_list_roundtrip (db : Store) (planId : Nat)
    (exercise_name : String) (sets repetitions : Nat) (notes : String)
    (hplan : ∃ p ∈ db.plans, p.plan_id = planId)
    (hfresh : ∀ e ∈ db.exercises, e.plan_id ≠ planId) :
    (createExerciseHandler db planId exercise_name sets repetitions notes false).2.1 =
      ⟨201, .exerciseCreated true "Exercise added to workout plan successfully."
        ⟨db.nextExerciseId, planId, exercise_name, sets, repetitions, notes⟩⟩ ∧
    (listExercisesHandler
        (createExerciseHandler db planId exercise_name sets repetitions notes false).1
        planId false).2.1 =
      ⟨200, .exerciseList
        [⟨db.nextExerciseId, planId, exercise_name, sets, repetitions, notes⟩]⟩ := by
  obtain ⟨p, hp, hpe⟩ := hplan
  have hany : fkPlanExists db planId = true := by
    rw [fkPlanExists, List.any_eq_true]
    exact ⟨p, hp, by simp [hpe]⟩
  have hfil : db.exercises.filter (fun e => e.plan_id == planId) = [] := by
    rw [List.filter_eq_nil_iff]
    intro e he
    simpa using hfresh e he
  constructor
  · simp [createExerciseHandler, hany]
  · simp [createExerciseHandler, listExercisesHandler, hany, hfil]

/-- Witness for C6: one plan in the store, one exercise created and listed
back intact. -/
theorem exercise_create_then_list_roundtrip_witness :
    (createExerciseHandler
        { users := [], plans := [⟨1, 1, "push", "a"⟩], exercises := [],
          nextUserId := 1, nextPlanId := 2, nextExerciseId := 1 }
        1 "bench press" 3 10 "slow" false).2.1 =
      ⟨201, .exerciseCreated true "Exercise added to workout plan successfully."
        ⟨1, 1, "bench press", 3, 10, "slow"⟩⟩ ∧
    (listExercisesHandler
        (createExerciseHandler
          { users := [], plans := [⟨1, 1, "push", "a"⟩], exercises := [],
            nextUserId := 1, nextPlanId := 2, nextExerciseId := 1 }
          1 "bench press" 3 10 "slow" false).1
        1 false).2.1 =
      ⟨200, .exerciseList [⟨1, 1, "bench press", 3, 10, "slow"⟩]⟩ :=
  exercise_create_then_list_roundtrip _ 1 "bench press" 3 10 "slow"
    ⟨⟨1, 1, "push", "a"⟩, by decide, rfl⟩ (by decide)
